import Mathlib

/-!
Shallow embedding of the circulation core of the sztu-library-system backend
(`src/backend/src/routes/borrow.py`, `reservation.py`, `review.py`, and the
data model of `src/backend/src/database.py`).

Conventions of the embedding:
* `datetime` values are modelled as Unix seconds (`Int`); `timedelta(days=n)`
  is `n * daySecs`.
* SQLAlchemy rows are Lean structures; the session is a `DB` record of lists.
* Monetary amounts and ratings averages (`float` in the source) are `Rat`.
  Python's `round(x, 2)` is modelled by `round2` (floor of `x*100 + 1/2`
  divided by 100, adequate for the non-negative amounts produced here).
* Each route handler becomes a function `DB → ... → DB × Except Err α`:
  the returned `DB` is the committed session state (unchanged when the
  handler raises before mutating), and the `Except` is the HTTP outcome.
  Authentication dependencies are modelled by passing the acting `User`.
* `ORDER BY ... ASC` is modelled with the stable `List.insertionSort`.
-/

namespace LibSys

inductive Role where
  | user
  | admin
deriving DecidableEq

inductive BorrowStatus where
  | borrowed
  | returned
  | overdue
deriving DecidableEq

inductive ReservationStatus where
  | pending
  | available
  | completed
  | cancelled
  | expired
deriving DecidableEq

inductive NotificationType where
  | borrowDue
  | reservationReady
  | overdueNotice
  | system
deriving DecidableEq

/-- Model of `database.py` `User` (the fields the circulation routes read). -/
structure User where
  id : Nat
  role : Role
  is_active : Bool
  max_borrow_count : Nat
deriving DecidableEq

/-- Model of `database.py` `Book` (the counter fields the routes read and write). -/
structure Book where
  id : Nat
  quantity : Int
  available_quantity : Int
  borrow_count : Int
  avg_rating : Rat
  review_count : Nat
deriving DecidableEq

/-- Model of `database.py` `BorrowRecord`. -/
structure BorrowRecord where
  id : Nat
  user_id : Nat
  book_id : Nat
  borrow_date : Int
  due_date : Int
  return_date : Option Int
  status : BorrowStatus
  renew_count : Nat
  fine_amount : Rat
  fine_paid : Bool
deriving DecidableEq

/-- Model of `database.py` `Reservation`. -/
structure Reservation where
  id : Nat
  user_id : Nat
  book_id : Nat
  reservation_date : Int
  expire_date : Option Int
  status : ReservationStatus
  queue_position : Nat
  notified : Bool
deriving DecidableEq

/-- Model of `database.py` `BookReview` (content text omitted; it never feeds a rollup). -/
structure BookReview where
  id : Nat
  user_id : Nat
  book_id : Nat
  rating : Nat
  is_visible : Bool
deriving DecidableEq

/-- Model of `database.py` `Notification` (title/content text omitted). -/
structure Notification where
  user_id : Nat
  ntype : NotificationType
  related_id : Nat
deriving DecidableEq

/-- The relational store: one list of rows per entity. -/
structure DB where
  users : List User
  books : List Book
  records : List BorrowRecord
  reservations : List Reservation
  reviews : List BookReview
  notifications : List Notification
deriving DecidableEq

/-- HTTP error outcomes raised by the handlers. -/
inductive Err where
  | notFound
  | forbidden
  | badRequest
deriving DecidableEq

def daySecs : Int := 86400

/-- Constant `DEFAULT_BORROW_DAYS = 30` of `borrow.py`. -/
def DEFAULT_BORROW_DAYS : Nat := 30

/-- Constant `MAX_RENEW_COUNT = 2` of `borrow.py`. -/
def MAX_RENEW_COUNT : Nat := 2

/-- Constant `DAILY_FINE = 0.5` of `borrow.py`. -/
def DAILY_FINE : Rat := 1 / 2

/-- Computable floor of a rational (`Rat.floor_def`: `⌊q⌋ = q.num / q.den`). -/
def ratFloor (q : Rat) : Int := q.num / (q.den : Int)

/-- Python `round(x, 2)` at the exact-rational level: scale by 100, round to
the nearest integer breaking ties half-to-even (banker's rounding, as Python
`round` does), scale back. -/
def round2 (q : Rat) : Rat :=
  ((if q * 100 - (ratFloor (q * 100) : Rat) < 1 / 2 then ratFloor (q * 100)
    else if 1 / 2 < q * 100 - (ratFloor (q * 100) : Rat) then ratFloor (q * 100) + 1
    else if ratFloor (q * 100) % 2 = 0 then ratFloor (q * 100)
    else ratFloor (q * 100) + 1 : Int) : Rat) / 100

-- ==================== row lookups (session queries by primary key) ====

def findUser (db : DB) (uid : Nat) : Option User :=
  db.users.find? (fun u => decide (u.id = uid))

def findBook (db : DB) (bid : Nat) : Option Book :=
  db.books.find? (fun b => decide (b.id = bid))

def findRecord (db : DB) (rid : Nat) : Option BorrowRecord :=
  db.records.find? (fun r => decide (r.id = rid))

def findReservation (db : DB) (rid : Nat) : Option Reservation :=
  db.reservations.find? (fun r => decide (r.id = rid))

def findReview (db : DB) (rid : Nat) : Option BookReview :=
  db.reviews.find? (fun v => decide (v.id = rid))

-- ==================== row updates (mutation of the fetched row) =======

def updateBook (db : DB) (bid : Nat) (f : Book → Book) : DB :=
  { db with books := db.books.map (fun b => if b.id = bid then f b else b) }

def updateRecord (db : DB) (rid : Nat) (f : BorrowRecord → BorrowRecord) : DB :=
  { db with records := db.records.map (fun r => if r.id = rid then f r else r) }

def updateReservation (db : DB) (rid : Nat) (f : Reservation → Reservation) : DB :=
  { db with reservations := db.reservations.map (fun r => if r.id = rid then f r else r) }

def updateReview (db : DB) (rid : Nat) (f : BookReview → BookReview) : DB :=
  { db with reviews := db.reviews.map (fun v => if v.id = rid then f v else v) }

-- ==================== aggregate queries used by borrow.py =============

/-- Query of `borrow_book`: count of the user's records with status in borrowed/overdue. -/
def openCount (db : DB) (uid : Nat) : Nat :=
  db.records.countP
    (fun r => decide (r.user_id = uid ∧
      (r.status = BorrowStatus.borrowed ∨ r.status = BorrowStatus.overdue)))

/-- Query of `borrow_book`: count of the user's records with a positive unpaid fine. -/
def unpaidCount (db : DB) (uid : Nat) : Nat :=
  db.records.countP
    (fun r => decide (r.user_id = uid ∧ 0 < r.fine_amount ∧ r.fine_paid = false))

/-- Query of `borrow_book`: the user's open (borrowed/overdue) record for this book, if any. -/
def openRecordFor (db : DB) (uid bid : Nat) : Option BorrowRecord :=
  db.records.find?
    (fun r => decide (r.user_id = uid ∧ r.book_id = bid ∧
      (r.status = BorrowStatus.borrowed ∨ r.status = BorrowStatus.overdue)))

/-- Count of pending reservations for a book (`renew_book`, `create_reservation`). -/
def pendingCount (db : DB) (bid : Nat) : Nat :=
  db.reservations.countP
    (fun r => decide (r.book_id = bid ∧ r.status = ReservationStatus.pending))

/-- The pending reservations of a book, in row order. -/
def pendingRes (db : DB) (bid : Nat) : List Reservation :=
  db.reservations.filter
    (fun r => decide (r.book_id = bid ∧ r.status = ReservationStatus.pending))

/-- Ordering `ORDER BY queue_position ASC` over a book's pending reservations. -/
def posLe (a b : Reservation) : Prop := a.queue_position ≤ b.queue_position

instance : DecidableRel posLe :=
  fun a b => inferInstanceAs (Decidable (a.queue_position ≤ b.queue_position))

instance : IsTotal Reservation posLe :=
  ⟨fun a b => Nat.le_total a.queue_position b.queue_position⟩

instance : IsTrans Reservation posLe :=
  ⟨fun _ _ _ h h2 => Nat.le_trans h h2⟩

def pendingByPos (db : DB) (bid : Nat) : List Reservation :=
  List.insertionSort posLe (pendingRes db bid)

/-- Ordering `ORDER BY reservation_date ASC` (used by `update_queue_positions`). -/
def dateLe (a b : Reservation) : Prop := a.reservation_date ≤ b.reservation_date

instance : DecidableRel dateLe :=
  fun a b => inferInstanceAs (Decidable (a.reservation_date ≤ b.reservation_date))

instance : IsTotal Reservation dateLe :=
  ⟨fun a b => Int.le_total a.reservation_date b.reservation_date⟩

instance : IsTrans Reservation dateLe :=
  ⟨fun _ _ _ h h2 => Int.le_trans h h2⟩

def pendingByDate (db : DB) (bid : Nat) : List Reservation :=
  List.insertionSort dateLe (pendingRes db bid)

-- ==================== borrow.py: calculate_fine =======================

/-- Model of `borrow.py` `calculate_fine(due_date, return_date)`. -/
def calculate_fine (due_date return_date : Int) : Rat :=
  if return_date ≤ due_date then 0
  else round2 (((return_date - due_date) / daySecs : Int) * DAILY_FINE)

-- ==================== borrow.py: borrow_book ==========================

/-- Model of `borrow.py` `borrow_book`.  `data_user_id` is the optional on-behalf
user id of the request body; `newRecId` is the id the store assigns to the
inserted record; `now` is `datetime.utcnow()`. -/
def borrow_book (db : DB) (actor : User) (data_user_id : Option Nat)
    (bid : Nat) (borrow_days : Nat) (newRecId : Nat) (now : Int) :
    DB × Except Err BorrowRecord :=
  let borrowerRes : Except Err User :=
    match data_user_id with
    | some uid =>
        if actor.role = Role.admin then
          match findUser db uid with
          | some u => Except.ok u
          | none => Except.error Err.notFound
        else Except.ok actor
    | none => Except.ok actor
  match borrowerRes with
  | Except.error e => (db, Except.error e)
  | Except.ok borrower =>
    if borrower.is_active = false then (db, Except.error Err.forbidden)
    else if borrower.max_borrow_count ≤ openCount db borrower.id then
      (db, Except.error Err.badRequest)
    else if 0 < unpaidCount db borrower.id then (db, Except.error Err.badRequest)
    else
      match findBook db bid with
      | none => (db, Except.error Err.notFound)
      | some book =>
        if book.available_quantity ≤ 0 then (db, Except.error Err.badRequest)
        else
          match openRecordFor db borrower.id bid with
          | some _ => (db, Except.error Err.badRequest)
          | none =>
            let bd := if borrow_days = 0 then DEFAULT_BORROW_DAYS else borrow_days
            let newRec : BorrowRecord :=
              { id := newRecId, user_id := borrower.id, book_id := book.id
                borrow_date := now, due_date := now + bd * daySecs
                return_date := none, status := BorrowStatus.borrowed
                renew_count := 0, fine_amount := 0, fine_paid := false }
            let db1 := updateBook db book.id (fun b =>
              { b with available_quantity := b.available_quantity - 1
                       borrow_count := b.borrow_count + 1 })
            ({ db1 with records := db1.records ++ [newRec] }, Except.ok newRec)

-- ==================== borrow.py: return_book ==========================

/-- The `if book: book.available_quantity += 1` step shared by
`return_book` and `cancel_reservation`: fetch the book row and, when it
exists, increment its availability. -/
def restockBook (d : DB) (bid : Nat) : DB :=
  match findBook d bid with
  | some _ => updateBook d bid (fun b =>
      { b with available_quantity := b.available_quantity + 1 })
  | none => d

/-- Model of `borrow.py` `return_book`. -/
def return_book (db : DB) (actor : User) (record_id : Nat)
    (fine_paid_flag : Bool) (now : Int) : DB × Except Err BorrowRecord :=
  match findRecord db record_id with
  | none => (db, Except.error Err.notFound)
  | some record =>
    if record.user_id ≠ actor.id ∧ actor.role ≠ Role.admin then
      (db, Except.error Err.forbidden)
    else if record.status = BorrowStatus.returned then
      (db, Except.error Err.badRequest)
    else
      let fine := calculate_fine record.due_date now
      let newRec : BorrowRecord :=
        { record with return_date := some now, status := BorrowStatus.returned
                      fine_amount := fine
                      fine_paid := if 0 < fine then fine_paid_flag else true }
      let db1 := updateRecord db record_id (fun _ => newRec)
      let db2 := restockBook db1 record.book_id
      match (pendingByPos db2 record.book_id).head? with
      | none => (db2, Except.ok newRec)
      | some p =>
        let db3 := updateReservation db2 p.id (fun r =>
          { r with status := ReservationStatus.available
                   expire_date := some (now + 3 * daySecs), notified := true })
        let db4 := { db3 with notifications := db3.notifications ++
          [{ user_id := p.user_id, ntype := NotificationType.reservationReady
             related_id := p.id }] }
        (db4, Except.ok newRec)

-- ==================== borrow.py: renew_book ===========================

/-- Model of `borrow.py` `renew_book`. -/
def renew_book (db : DB) (actor : User) (record_id : Nat) (renew_days : Nat) :
    DB × Except Err BorrowRecord :=
  match findRecord db record_id with
  | none => (db, Except.error Err.notFound)
  | some record =>
    if record.user_id ≠ actor.id ∧ actor.role ≠ Role.admin then
      (db, Except.error Err.forbidden)
    else if record.status = BorrowStatus.returned then
      (db, Except.error Err.badRequest)
    else if record.status = BorrowStatus.overdue then
      (db, Except.error Err.badRequest)
    else if MAX_RENEW_COUNT ≤ record.renew_count then
      (db, Except.error Err.badRequest)
    else if 0 < pendingCount db record.book_id then
      (db, Except.error Err.badRequest)
    else
      let newRec : BorrowRecord :=
        { record with due_date := record.due_date + renew_days * daySecs
                      renew_count := record.renew_count + 1 }
      (updateRecord db record_id (fun _ => newRec), Except.ok newRec)

-- ==================== borrow.py: batch_check_overdue ==================

/-- The per-record transition of `batch_check_overdue`. -/
def overdueStep (now : Int) (r : BorrowRecord) : BorrowRecord :=
  if r.status = BorrowStatus.borrowed ∧ r.due_date < now then
    { r with status := BorrowStatus.overdue
             fine_amount := calculate_fine r.due_date now }
  else r

/-- The records selected by the sweep query (`status=borrowed AND due_date < now`). -/
def newlyOverdue (db : DB) (now : Int) : List BorrowRecord :=
  db.records.filter
    (fun r => decide (r.status = BorrowStatus.borrowed ∧ r.due_date < now))

/-- Model of `borrow.py` `batch_check_overdue`: returns the new state and the count
reported in the response message. -/
def batch_check_overdue (db : DB) (now : Int) : DB × Nat :=
  ({ db with
      records := db.records.map (overdueStep now)
      notifications := db.notifications ++ (newlyOverdue db now).map
        (fun r => { user_id := r.user_id, ntype := NotificationType.overdueNotice
                    related_id := r.id }) },
   (newlyOverdue db now).length)

-- ==================== reservation.py ==================================

/-- The row transformation performed by `update_queue_positions`: a row
whose primary key occurs in the date-sorted pending list gets
`queue_position` one plus its index there; other rows are untouched. -/
def assignPos (sorted : List Reservation) (r : Reservation) : Reservation :=
  match sorted.findIdx? (fun s => decide (s.id = r.id)) with
  | some i => { r with queue_position := i + 1 }
  | none => r

/-- Model of `reservation.py` `update_queue_positions`: reload the book's pending
reservations ordered by `reservation_date` ascending and assign
`queue_position = 1, 2, ...` along that order (rows are identified by
primary key). -/
def update_queue_positions (db : DB) (bid : Nat) : DB :=
  { db with reservations := db.reservations.map (assignPos (pendingByDate db bid)) }

/-- Model of `reservation.py` `create_reservation`. -/
def create_reservation (db : DB) (actor : User) (bid : Nat) (newId : Nat)
    (now : Int) : DB × Except Err Reservation :=
  if actor.is_active = false then (db, Except.error Err.forbidden)
  else
    match findBook db bid with
    | none => (db, Except.error Err.notFound)
    | some book =>
      if 0 < book.available_quantity then (db, Except.error Err.badRequest)
      else
        match db.reservations.find? (fun r => decide (r.user_id = actor.id ∧
            r.book_id = bid ∧ (r.status = ReservationStatus.pending ∨
              r.status = ReservationStatus.available))) with
        | some _ => (db, Except.error Err.badRequest)
        | none =>
          match db.records.find? (fun r => decide (r.user_id = actor.id ∧
              r.book_id = bid ∧ (r.status = BorrowStatus.borrowed ∨
                r.status = BorrowStatus.overdue))) with
          | some _ => (db, Except.error Err.badRequest)
          | none =>
            let res : Reservation :=
              { id := newId, user_id := actor.id, book_id := bid
                reservation_date := now, expire_date := none
                status := ReservationStatus.pending
                queue_position := pendingCount db bid + 1, notified := false }
            ({ db with reservations := db.reservations ++ [res] }, Except.ok res)

/-- Model of `reservation.py` `cancel_reservation`. -/
def cancel_reservation (db : DB) (actor : User) (rid : Nat) :
    DB × Except Err Reservation :=
  match findReservation db rid with
  | none => (db, Except.error Err.notFound)
  | some res =>
    if res.user_id ≠ actor.id ∧ actor.role ≠ Role.admin then
      (db, Except.error Err.forbidden)
    else if ¬ (res.status = ReservationStatus.pending ∨
               res.status = ReservationStatus.available) then
      (db, Except.error Err.badRequest)
    else
      let db1 :=
        if res.status = ReservationStatus.available then restockBook db res.book_id
        else db
      let db2 := updateReservation db1 rid (fun r =>
        { r with status := ReservationStatus.cancelled })
      let db3 := update_queue_positions db2 res.book_id
      (db3, Except.ok { res with status := ReservationStatus.cancelled })

/-- Model of `reservation.py` `complete_reservation`. -/
def complete_reservation (db : DB) (actor : User) (rid : Nat)
    (newRecId : Nat) (now : Int) : DB × Except Err Reservation :=
  match findReservation db rid with
  | none => (db, Except.error Err.notFound)
  | some res =>
    if res.user_id ≠ actor.id ∧ actor.role ≠ Role.admin then
      (db, Except.error Err.forbidden)
    else if res.status ≠ ReservationStatus.available then
      (db, Except.error Err.badRequest)
    else if (match res.expire_date with
             | some e => decide (e < now)
             | none => false) then
      -- the handler commits the expiry transition and then raises
      (updateReservation db rid (fun r => { r with status := ReservationStatus.expired }),
       Except.error Err.badRequest)
    else
      match findBook db res.book_id with
      | none => (db, Except.error Err.notFound)
      | some book =>
        let newRec : BorrowRecord :=
          { id := newRecId, user_id := res.user_id, book_id := res.book_id
            borrow_date := now, due_date := now + 30 * daySecs
            return_date := none, status := BorrowStatus.borrowed
            renew_count := 0, fine_amount := 0, fine_paid := false }
        let db1 := updateBook db book.id (fun b =>
          { b with borrow_count := b.borrow_count + 1
                   available_quantity := b.available_quantity - 1 })
        let db2 := updateReservation db1 rid (fun r =>
          { r with status := ReservationStatus.completed })
        ({ db2 with records := db2.records ++ [newRec] },
         Except.ok { res with status := ReservationStatus.completed })

/-- The sweep query of `batch_check_expired`: an available reservation whose
`expire_date` is set and past (SQL `NULL < now` is not satisfied). -/
def resExpiredAt (now : Int) (r : Reservation) : Bool :=
  decide (r.status = ReservationStatus.available) &&
    (match r.expire_date with
     | some e => decide (e < now)
     | none => false)

/-- Model of `reservation.py` `batch_check_expired`: expire each hit, restore
its book's availability, emit one notification per hit, then recompute queue
positions once per affected book.  Python iterates the affected book ids as
a set in unspecified order; first-occurrence order is used here (the
recomputations touch disjoint pending sets, so any order yields this state). -/
def batch_check_expired (db : DB) (now : Int) : DB × Nat :=
  let hits := db.reservations.filter (resExpiredAt now)
  let db1 := { db with reservations := db.reservations.map (fun r =>
      if resExpiredAt now r then { r with status := ReservationStatus.expired }
      else r) }
  let db2 := hits.foldl (fun d r => restockBook d r.book_id) db1
  let db3 := { db2 with notifications := db2.notifications ++ hits.map (fun r =>
      { user_id := r.user_id, ntype := NotificationType.system
        related_id := r.id }) }
  let db4 := ((hits.map Reservation.book_id).dedup).foldl update_queue_positions db3
  (db4, hits.length)

-- ==================== review.py =======================================

/-- A book's visible reviews (`BookReview.book_id == bid AND is_visible`). -/
def visibleReviews (db : DB) (bid : Nat) : List BookReview :=
  db.reviews.filter (fun v => decide (v.book_id = bid ∧ v.is_visible = true))

/-- Aggregate `AVG(rating)` over the visible reviews, with SQL `NULL` (no rows) read
back as `0` by `update_book_rating`. -/
def visibleRatingsMean (db : DB) (bid : Nat) : Rat :=
  let vs := visibleReviews db bid
  if vs.length = 0 then 0
  else (vs.map (fun v => (v.rating : Rat))).sum / (vs.length : Rat)

/-- Model of `review.py` `update_book_rating`. -/
def update_book_rating (db : DB) (bid : Nat) : DB :=
  match findBook db bid with
  | some _ => updateBook db bid (fun b =>
      { b with avg_rating := round2 (visibleRatingsMean db bid)
               review_count := (visibleReviews db bid).length })
  | none => db

/-- Model of `review.py` `create_review`. -/
def create_review (db : DB) (actor : User) (bid : Nat) (rating : Nat)
    (newId : Nat) : DB × Except Err BookReview :=
  match findBook db bid with
  | none => (db, Except.error Err.notFound)
  | some _ =>
    let has_borrowed := db.records.find?
      (fun r => decide (r.user_id = actor.id ∧ r.book_id = bid))
    if has_borrowed = none ∧ actor.role ≠ Role.admin then
      (db, Except.error Err.forbidden)
    else
      match db.reviews.find?
        (fun v => decide (v.user_id = actor.id ∧ v.book_id = bid)) with
      | some _ => (db, Except.error Err.badRequest)
      | none =>
        let v : BookReview :=
          { id := newId, user_id := actor.id, book_id := bid
            rating := rating, is_visible := true }
        let db1 := { db with reviews := db.reviews ++ [v] }
        (update_book_rating db1 bid, Except.ok v)

/-- Model of `review.py` `update_review` (optional new rating; content not modelled). -/
def update_review (db : DB) (actor : User) (review_id : Nat)
    (newRating : Option Nat) : DB × Except Err BookReview :=
  match findReview db review_id with
  | none => (db, Except.error Err.notFound)
  | some v =>
    if v.user_id ≠ actor.id ∧ actor.role ≠ Role.admin then
      (db, Except.error Err.forbidden)
    else
      let v1 := match newRating with
        | some k => { v with rating := k }
        | none => v
      let db1 := updateReview db review_id (fun _ => v1)
      (update_book_rating db1 v.book_id, Except.ok v1)

/-- Model of `review.py` `delete_review`. -/
def delete_review (db : DB) (actor : User) (review_id : Nat) :
    DB × Except Err Unit :=
  match findReview db review_id with
  | none => (db, Except.error Err.notFound)
  | some v =>
    if v.user_id ≠ actor.id ∧ actor.role ≠ Role.admin then
      (db, Except.error Err.forbidden)
    else
      let db1 := { db with
        reviews := db.reviews.filter (fun w => decide (w.id ≠ review_id)) }
      (update_book_rating db1 v.book_id, Except.ok ())

/-- Model of `review.py` `toggle_review_visibility` (admin-only route; the admin
dependency is enforced by the framework before the handler body runs). -/
def toggle_review_visibility (db : DB) (review_id : Nat) :
    DB × Except Err BookReview :=
  match findReview db review_id with
  | none => (db, Except.error Err.notFound)
  | some v =>
    let v1 := { v with is_visible := ! v.is_visible }
    let db1 := updateReview db review_id (fun _ => v1)
    (update_book_rating db1 v.book_id, Except.ok v1)

-- ==================== derived predicates ==============================

/-- Spec section 3 book invariant: `0 ≤ available_quantity ≤ quantity` for every book. -/
def bookInvariant (db : DB) : Prop :=
  ∀ b ∈ db.books, 0 ≤ b.available_quantity ∧ b.available_quantity ≤ b.quantity

instance (db : DB) : Decidable (bookInvariant db) :=
  inferInstanceAs (Decidable (∀ b ∈ db.books, _ ∧ _))

/-- Spec section 4.1 precondition set for borrowing, as the spec lists it. -/
def borrowPre (db : DB) (u : User) (b : Book) (bid : Nat) : Prop :=
  u.is_active = true ∧
  openCount db u.id < u.max_borrow_count ∧
  unpaidCount db u.id = 0 ∧
  0 < b.available_quantity ∧
  openRecordFor db u.id bid = none

/-- A list of pending reservations carries a contiguous `1..N` ranking that
ascends with `reservation_date`. -/
def isContiguousRanking (l : List Reservation) : Prop :=
  (l.map Reservation.queue_position).Perm (List.range' 1 l.length) ∧
  ∀ r ∈ l, ∀ s ∈ l, r.reservation_date < s.reservation_date →
    r.queue_position < s.queue_position

instance (l : List Reservation) : Decidable (isContiguousRanking l) :=
  inferInstanceAs (Decidable (_ ∧ _))

/-- The rating rollup of §4.5 holds for book `bid` in state `db`:
`avg_rating` is the (2-decimal rounded) mean of the visible reviews and
`review_count` their number. -/
def rollupOK (db : DB) (bid : Nat) : Prop :=
  ∀ b ∈ db.books, b.id = bid →
    b.avg_rating = round2 (visibleRatingsMean db bid) ∧
    b.review_count = (visibleReviews db bid).length

/-- The derived rating fields of a shelf of books (id, avg_rating,
review_count), used to state that an operation writes neither rollup field. -/
def ratingFields (bs : List Book) : List (Nat × Rat × Nat) :=
  bs.map (fun b => (b.id, b.avg_rating, b.review_count))

-- ==================== concrete fixtures for the witnesses =============

def u1 : User := { id := 1, role := Role.user, is_active := true, max_borrow_count := 3 }

def u2 : User := { id := 2, role := Role.user, is_active := true, max_borrow_count := 3 }

def u3 : User := { id := 3, role := Role.user, is_active := true, max_borrow_count := 3 }

def book1 : Book :=
  { id := 1, quantity := 1, available_quantity := 1, borrow_count := 0
    avg_rating := 0, review_count := 0 }

/-- An open (borrowed) record of user 1 on book 1. -/
def recHeld : BorrowRecord :=
  { id := 1, user_id := 1, book_id := 1, borrow_date := 0
    due_date := 30 * daySecs, return_date := none
    status := BorrowStatus.borrowed, renew_count := 0
    fine_amount := 0, fine_paid := false }

/-- User 2 first in the queue for book 1. -/
def resQ1 : Reservation :=
  { id := 1, user_id := 2, book_id := 1, reservation_date := 100
    expire_date := none, status := ReservationStatus.pending
    queue_position := 1, notified := false }

/-- User 3 second in the queue for book 1. -/
def resQ2 : Reservation :=
  { id := 2, user_id := 3, book_id := 1, reservation_date := 200
    expire_date := none, status := ReservationStatus.pending
    queue_position := 2, notified := false }

/-- One copy of book 1 out with user 1; user 2 queued (pending) ahead of user 3. -/
def dbQueue : DB :=
  { users := [u1, u2, u3]
    books := [{ book1 with available_quantity := 0, borrow_count := 1 }]
    records := [recHeld]
    reservations := [resQ1, resQ2]
    reviews := []
    notifications := [] }

/-- Book 1 on the shelf, user 2 with a clean slate. -/
def dbShelf : DB :=
  { users := [u1, u2], books := [book1], records := [], reservations := []
    reviews := [], notifications := [] }

/-- A record user 1 already returned. -/
def recReturned : BorrowRecord :=
  { id := 1, user_id := 1, book_id := 1, borrow_date := 0
    due_date := 30 * daySecs, return_date := some (10 * daySecs)
    status := BorrowStatus.returned, renew_count := 0
    fine_amount := 0, fine_paid := true }

/-- User 1 already returned record 1. -/
def dbReturned : DB :=
  { users := [u1]
    books := [book1]
    records := [recReturned]
    reservations := [], reviews := [], notifications := [] }

/-- User 1 holds record 1 (borrowed, never renewed); nobody queues for book 1. -/
def dbHeld : DB :=
  { users := [u1]
    books := [{ book1 with available_quantity := 0, borrow_count := 1 }]
    records := [recHeld]
    reservations := [], reviews := [], notifications := [] }

/-- An admin account. -/
def uA : User := { id := 9, role := Role.admin, is_active := true, max_borrow_count := 5 }

/-- A visible 4-star review by user 1 on book 1. -/
def rv1 : BookReview :=
  { id := 1, user_id := 1, book_id := 1, rating := 4, is_visible := true }

/-- A visible review by user 1 on book 1. -/
def dbReviewed : DB :=
  { users := [u1, uA]
    books := [{ book1 with avg_rating := 4, review_count := 1 }]
    records := []
    reservations := []
    reviews := [rv1]
    notifications := [] }

/-- A second visible 4-star review (user 2, book 1). -/
def rv2 : BookReview :=
  { id := 2, user_id := 2, book_id := 1, rating := 4, is_visible := true }

/-- Book 1 with two visible 4-star reviews. -/
def dbRate : DB :=
  { users := [u1, u2, uA]
    books := [{ book1 with avg_rating := 4, review_count := 2 }]
    records := []
    reservations := []
    reviews := [rv1, rv2]
    notifications := [] }

/-- State `dbRate` right after inserting the admin's 5-star review, before the
rating rollup runs. -/
def dbRate2 : DB :=
  { dbRate with reviews := dbRate.reviews ++
      [{ id := 3, user_id := 9, book_id := 1, rating := 5, is_visible := true }] }

-- ======================================================================
-- Theorems
-- ======================================================================

lemma ratFloor_eq (q : Rat) : ratFloor q = ⌊q⌋ := Rat.floor_def.symm

/-- Values whose hundredfold is an integer are fixed points of `round2`. -/
lemma round2_of_int_mul (q : Rat) (m : Int) (h : q * 100 = (m : Rat)) :
    round2 q = q := by
  unfold round2
  rw [ratFloor_eq, h, Int.floor_intCast, sub_self]
  rw [if_pos (by norm_num : (0 : Rat) < 1 / 2)]
  rw [← h]
  ring

lemma round2_mul_daily_fine (k : Int) :
    round2 ((k : Rat) * DAILY_FINE) = (k : Rat) * DAILY_FINE := by
  apply round2_of_int_mul _ (50 * k)
  rw [DAILY_FINE]
  push_cast
  ring

/-- Sanity instance of the half-to-even tie rule: a visible-ratings mean of
`33/8 = 4.125` rounds down to `4.12`, as Python's `round` does. -/
lemma round2_tie_half_even : round2 (33 / 8) = 412 / 100 := by
  have hfl : (⌊(33 / 8 : Rat) * 100⌋ : Int) = 412 := by norm_num
  unfold round2
  rw [ratFloor_eq, hfl]
  norm_num

/-- C5: the fine computed at return equals `max(0, days_late) × daily_rate`,
with `days_late` the number of whole days by which the return time exceeds
the due date (0 when on time); with the daily rate 0.5, a return 3 days
late yields 1.5 and a return on or before the due date yields 0. -/
theorem calculate_fine_correct :
    (∀ due ret : Int, calculate_fine due ret =
      ((max 0 (if due < ret then (ret - due) / daySecs else 0) : Int) : Rat) * DAILY_FINE) ∧
    calculate_fine (10 * daySecs) (13 * daySecs) = 3 / 2 ∧
    calculate_fine (10 * daySecs) (10 * daySecs) = 0 := by
  have main : ∀ due ret : Int, calculate_fine due ret =
      ((max 0 (if due < ret then (ret - due) / daySecs else 0) : Int) : Rat) * DAILY_FINE := by
    intro due ret
    unfold calculate_fine
    by_cases h : ret ≤ due
    · rw [if_pos h, if_neg (by omega)]
      norm_num
    · rw [if_neg h, if_pos (by omega)]
      rw [round2_mul_daily_fine]
      have hk : 0 ≤ (ret - due) / daySecs :=
        Int.ediv_nonneg (by omega) (by norm_num [daySecs])
      rw [max_eq_right hk]
  refine ⟨main, ?_, ?_⟩
  · rw [main]
    have h1 : (10 : Int) * daySecs < 13 * daySecs := by norm_num [daySecs]
    rw [if_pos h1]
    have h2 : ((13 : Int) * daySecs - 10 * daySecs) / daySecs = 3 := by
      simp [daySecs]
    rw [h2, DAILY_FINE]
    norm_num
  · rw [main, if_neg (by omega)]
    norm_num

/-- C6: a second return attempt on an already-returned record is rejected
with an error and leaves the entire state unchanged. -/
theorem return_book_second_rejected (db : DB) (actor : User) (rid : Nat)
    (fp : Bool) (now : Int) (record : BorrowRecord)
    (hr : findRecord db rid = some record)
    (hperm : record.user_id = actor.id ∨ actor.role = Role.admin)
    (hst : record.status = BorrowStatus.returned) :
    return_book db actor rid fp now = (db, Except.error Err.badRequest) := by
  have hp : ¬ (record.user_id ≠ actor.id ∧ actor.role ≠ Role.admin) := by tauto
  simp only [return_book, hr]
  rw [if_neg hp, if_pos hst]

/-- Witness for C6 at a concrete state. -/
theorem return_book_second_rejected_w :
    return_book dbReturned u1 1 false (40 * daySecs) =
      (dbReturned, Except.error Err.badRequest) :=
  return_book_second_rejected dbReturned u1 1 false (40 * daySecs) recReturned
    (by decide) (by decide) (by decide)

/-- C7: renewal by the record's owner (or an admin) is rejected exactly when
the record is returned, or overdue, or has reached the renewal cap (2), or
the book has a pending reservation; otherwise it succeeds and the only
changes are `due_date += renew_days` and `renew_count += 1` on that record. -/
theorem renew_book_correct (db : DB) (actor : User) (rid renew_days : Nat)
    (record : BorrowRecord)
    (hr : findRecord db rid = some record)
    (hperm : record.user_id = actor.id ∨ actor.role = Role.admin) :
    ((record.status = BorrowStatus.returned ∨ record.status = BorrowStatus.overdue ∨
      MAX_RENEW_COUNT ≤ record.renew_count ∨ 0 < pendingCount db record.book_id) →
      renew_book db actor rid renew_days = (db, Except.error Err.badRequest)) ∧
    (¬ (record.status = BorrowStatus.returned ∨ record.status = BorrowStatus.overdue ∨
      MAX_RENEW_COUNT ≤ record.renew_count ∨ 0 < pendingCount db record.book_id) →
      renew_book db actor rid renew_days =
        (updateRecord db rid (fun _ =>
          { record with due_date := record.due_date + renew_days * daySecs
                        renew_count := record.renew_count + 1 }),
         Except.ok
          { record with due_date := record.due_date + renew_days * daySecs
                        renew_count := record.renew_count + 1 })) := by
  have hp : ¬ (record.user_id ≠ actor.id ∧ actor.role ≠ Role.admin) := by tauto
  simp only [renew_book, hr]
  rw [if_neg hp]
  by_cases h1 : record.status = BorrowStatus.returned
  · rw [if_pos h1]
    exact ⟨fun _ => rfl, fun hn => absurd (Or.inl h1) hn⟩
  · rw [if_neg h1]
    by_cases h2 : record.status = BorrowStatus.overdue
    · rw [if_pos h2]
      exact ⟨fun _ => rfl, fun hn => absurd (Or.inr (Or.inl h2)) hn⟩
    · rw [if_neg h2]
      by_cases h3 : MAX_RENEW_COUNT ≤ record.renew_count
      · rw [if_pos h3]
        exact ⟨fun _ => rfl, fun hn => absurd (Or.inr (Or.inr (Or.inl h3))) hn⟩
      · rw [if_neg h3]
        by_cases h4 : 0 < pendingCount db record.book_id
        · rw [if_pos h4]
          exact ⟨fun _ => rfl, fun hn => absurd (Or.inr (Or.inr (Or.inr h4))) hn⟩
        · rw [if_neg h4]
          refine ⟨fun hc => ?_, fun _ => rfl⟩
          rcases hc with h | h | h | h
          · exact absurd h h1
          · exact absurd h h2
          · exact absurd h h3
          · exact absurd h h4

/-- Witness for C7 at a concrete state. -/
theorem renew_book_correct_w :
    (((recHeld.status = BorrowStatus.returned ∨ recHeld.status = BorrowStatus.overdue ∨
      MAX_RENEW_COUNT ≤ recHeld.renew_count ∨ 0 < pendingCount dbHeld recHeld.book_id) →
      renew_book dbHeld u1 1 14 = (dbHeld, Except.error Err.badRequest)) ∧
    (¬ (recHeld.status = BorrowStatus.returned ∨ recHeld.status = BorrowStatus.overdue ∨
      MAX_RENEW_COUNT ≤ recHeld.renew_count ∨ 0 < pendingCount dbHeld recHeld.book_id) →
      renew_book dbHeld u1 1 14 =
        (updateRecord dbHeld 1 (fun _ =>
          { recHeld with due_date := recHeld.due_date + 14 * daySecs
                         renew_count := recHeld.renew_count + 1 }),
         Except.ok
          { recHeld with due_date := recHeld.due_date + 14 * daySecs
                         renew_count := recHeld.renew_count + 1 }))) :=
  renew_book_correct dbHeld u1 1 14 recHeld (by decide) (by decide)

lemma overdueStep_skip (now : Int) (r : BorrowRecord)
    (h : ¬ (r.status = BorrowStatus.borrowed ∧ r.due_date < now)) :
    overdueStep now r = r := if_neg h

lemma overdueStep_hit (now : Int) (r : BorrowRecord)
    (h : r.status = BorrowStatus.borrowed ∧ r.due_date < now) :
    overdueStep now r =
      { r with status := BorrowStatus.overdue
               fine_amount := calculate_fine r.due_date now } := if_pos h

lemma overdueStep_not_selected (now : Int) (r : BorrowRecord) :
    ¬ ((overdueStep now r).status = BorrowStatus.borrowed ∧
       (overdueStep now r).due_date < now) := by
  unfold overdueStep
  split
  · intro hc
    exact absurd hc.1 (by simp)
  · next h => exact h

lemma batch_check_overdue_fixed (d : DB) (now : Int)
    (h1 : newlyOverdue d now = [])
    (h2 : d.records.map (overdueStep now) = d.records) :
    batch_check_overdue d now = (d, 0) := by
  unfold batch_check_overdue
  rw [h1, h2]
  simp

lemma newlyOverdue_after_sweep (db : DB) (now : Int) :
    newlyOverdue (batch_check_overdue db now).1 now = [] := by
  apply List.filter_eq_nil_iff.mpr
  intro x hx
  have hx2 : x ∈ db.records.map (overdueStep now) := hx
  obtain ⟨r, _, rfl⟩ := List.mem_map.mp hx2
  simpa using overdueStep_not_selected now r

/-- C9: the overdue sweep turns exactly the records with `status=borrowed`
and `due_date < now` into `overdue` records with their fine computed, emits
one overdue notification per such record, reports their count, and is
idempotent at the same instant: a second sweep changes nothing and emits
nothing. -/
theorem batch_check_overdue_correct (db : DB) (now : Int) :
    (batch_check_overdue db now).1.records = db.records.map (overdueStep now) ∧
    (∀ r : BorrowRecord, r.status = BorrowStatus.borrowed ∧ r.due_date < now →
      overdueStep now r =
        { r with status := BorrowStatus.overdue
                 fine_amount := calculate_fine r.due_date now }) ∧
    (∀ r : BorrowRecord, ¬ (r.status = BorrowStatus.borrowed ∧ r.due_date < now) →
      overdueStep now r = r) ∧
    (batch_check_overdue db now).1.notifications = db.notifications ++
      (newlyOverdue db now).map (fun r =>
        { user_id := r.user_id, ntype := NotificationType.overdueNotice
          related_id := r.id }) ∧
    (batch_check_overdue db now).2 = (newlyOverdue db now).length ∧
    batch_check_overdue (batch_check_overdue db now).1 now =
      ((batch_check_overdue db now).1, 0) := by
  refine ⟨rfl, overdueStep_hit now, overdueStep_skip now, rfl, rfl, ?_⟩
  apply batch_check_overdue_fixed
  · exact newlyOverdue_after_sweep db now
  · show ((db.records.map (overdueStep now)).map (overdueStep now)) = _
    rw [List.map_map]
    exact List.map_congr_left (fun a _ =>
      overdueStep_skip now _ (overdueStep_not_selected now a))

/-- Witness for C9 at a concrete state (one overdue-to-be record). -/
theorem batch_check_overdue_correct_w :
    (batch_check_overdue dbHeld (40 * daySecs)).1.records =
      dbHeld.records.map (overdueStep (40 * daySecs)) ∧
    (∀ r : BorrowRecord,
      r.status = BorrowStatus.borrowed ∧ r.due_date < 40 * daySecs →
      overdueStep (40 * daySecs) r =
        { r with status := BorrowStatus.overdue
                 fine_amount := calculate_fine r.due_date (40 * daySecs) }) ∧
    (∀ r : BorrowRecord,
      ¬ (r.status = BorrowStatus.borrowed ∧ r.due_date < 40 * daySecs) →
      overdueStep (40 * daySecs) r = r) ∧
    (batch_check_overdue dbHeld (40 * daySecs)).1.notifications =
      dbHeld.notifications ++ (newlyOverdue dbHeld (40 * daySecs)).map (fun r =>
        { user_id := r.user_id, ntype := NotificationType.overdueNotice
          related_id := r.id }) ∧
    (batch_check_overdue dbHeld (40 * daySecs)).2 =
      (newlyOverdue dbHeld (40 * daySecs)).length ∧
    batch_check_overdue (batch_check_overdue dbHeld (40 * daySecs)).1 (40 * daySecs) =
      ((batch_check_overdue dbHeld (40 * daySecs)).1, 0) :=
  batch_check_overdue_correct dbHeld (40 * daySecs)

/-- C2: a (self-service) borrow succeeds exactly when the §4.1 precondition
set holds — user active, open-record count below the limit, no unpaid
positive fine, stock available, no open record on this book — and then its
whole effect is: this book's `available_quantity` down by 1 and
`borrow_count` up by 1, plus one inserted `borrowed` record with
`due_date = now + requested_days`; any violated precondition rejects the
request with the state unchanged. -/
theorem borrow_book_correct (db : DB) (u : User) (b : Book)
    (bid days newId : Nat) (now : Int)
    (hb : findBook db bid = some b) (hdays : 0 < days) :
    (borrowPre db u b bid →
      borrow_book db u none bid days newId now =
        ({ updateBook db b.id (fun bk =>
            { bk with available_quantity := bk.available_quantity - 1
                      borrow_count := bk.borrow_count + 1 }) with
           records := db.records ++
            [{ id := newId, user_id := u.id, book_id := b.id
               borrow_date := now, due_date := now + days * daySecs
               return_date := none, status := BorrowStatus.borrowed
               renew_count := 0, fine_amount := 0, fine_paid := false }] },
         Except.ok
           { id := newId, user_id := u.id, book_id := b.id
             borrow_date := now, due_date := now + days * daySecs
             return_date := none, status := BorrowStatus.borrowed
             renew_count := 0, fine_amount := 0, fine_paid := false })) ∧
    (¬ borrowPre db u b bid → ∃ e,
      borrow_book db u none bid days newId now = (db, Except.error e)) := by
  simp only [borrow_book, hb]
  by_cases h1 : u.is_active = false
  · refine ⟨fun hp => ?_, fun _ => ?_⟩
    · rw [hp.1] at h1
      exact absurd h1 (by simp)
    · rw [if_pos h1]
      exact ⟨Err.forbidden, rfl⟩
  · rw [if_neg h1]
    have h1t : u.is_active = true := by
      cases hact : u.is_active
      · exact absurd hact h1
      · rfl
    by_cases h2 : u.max_borrow_count ≤ openCount db u.id
    · refine ⟨fun hp => absurd hp.2.1 (by omega), fun _ => ?_⟩
      rw [if_pos h2]
      exact ⟨Err.badRequest, rfl⟩
    · rw [if_neg h2]
      by_cases h3 : 0 < unpaidCount db u.id
      · refine ⟨fun hp => absurd hp.2.2.1 (by omega), fun _ => ?_⟩
        rw [if_pos h3]
        exact ⟨Err.badRequest, rfl⟩
      · rw [if_neg h3]
        by_cases h4 : b.available_quantity ≤ 0
        · refine ⟨fun hp => absurd hp.2.2.2.1 (by omega), fun _ => ?_⟩
          rw [if_pos h4]
          exact ⟨Err.badRequest, rfl⟩
        · rw [if_neg h4]
          cases h5 : openRecordFor db u.id bid with
          | some r =>
            refine ⟨fun hp => ?_, fun _ => ⟨Err.badRequest, rfl⟩⟩
            rw [hp.2.2.2.2] at h5
            exact Option.noConfusion h5
          | none =>
            have hbd : (if days = 0 then DEFAULT_BORROW_DAYS else days) = days :=
              if_neg (Nat.pos_iff_ne_zero.mp hdays)
            refine ⟨fun _ => ?_,
              fun hnp => absurd ⟨h1t, by omega, by omega, by omega, h5⟩ hnp⟩
            rw [hbd]
            rfl

/-- Witness for C2 at a concrete state (empty library card, one copy on
the shelf). -/
theorem borrow_book_correct_w :
    (borrowPre dbShelf u2 book1 1 →
      borrow_book dbShelf u2 none 1 30 1 0 =
        ({ updateBook dbShelf book1.id (fun bk =>
            { bk with available_quantity := bk.available_quantity - 1
                      borrow_count := bk.borrow_count + 1 }) with
           records := dbShelf.records ++
            [{ id := 1, user_id := u2.id, book_id := book1.id
               borrow_date := 0, due_date := 0 + 30 * daySecs
               return_date := none, status := BorrowStatus.borrowed
               renew_count := 0, fine_amount := 0, fine_paid := false }] },
         Except.ok
           { id := 1, user_id := u2.id, book_id := book1.id
             borrow_date := 0, due_date := 0 + 30 * daySecs
             return_date := none, status := BorrowStatus.borrowed
             renew_count := 0, fine_amount := 0, fine_paid := false })) ∧
    (¬ borrowPre dbShelf u2 book1 1 → ∃ e,
      borrow_book dbShelf u2 none 1 30 1 0 = (dbShelf, Except.error e)) :=
  borrow_book_correct dbShelf u2 book1 1 30 1 0 (by decide) (by decide)

-- ==================== queue-position ranking lemmas ===================

lemma assignPos_book_id (s : List Reservation) (r : Reservation) :
    (assignPos s r).book_id = r.book_id := by
  unfold assignPos
  split <;> rfl

lemma assignPos_status (s : List Reservation) (r : Reservation) :
    (assignPos s r).status = r.status := by
  unfold assignPos
  split <;> rfl

lemma assignPos_date (s : List Reservation) (r : Reservation) :
    (assignPos s r).reservation_date = r.reservation_date := by
  unfold assignPos
  split <;> rfl

/-- In a list whose keys are distinct, searching for the key of the `i`-th
element finds exactly index `i`. -/
lemma findIdx?_key_self {α κ : Type} [DecidableEq κ] (key : α → κ) :
    ∀ (s : List α), (s.map key).Nodup → ∀ i, ∀ h : i < s.length,
      s.findIdx? (fun x => decide (key x = key (s.get ⟨i, h⟩))) = some i := by
  intro s
  induction s with
  | nil =>
    intro _ i h
    exact absurd h (Nat.not_lt_zero i)
  | cons a t ih =>
    intro hnd i h
    rw [List.map_cons, List.nodup_cons] at hnd
    cases i with
    | zero =>
      rw [List.findIdx?_cons]
      simp
    | succ j =>
      have hj : j < t.length := Nat.lt_of_succ_lt_succ h
      have hget : ((a :: t).get ⟨j + 1, h⟩) = t.get ⟨j, hj⟩ := rfl
      have hne : (decide (key a = key ((a :: t).get ⟨j + 1, h⟩))) = false := by
        apply decide_eq_false
        intro he
        rw [hget] at he
        exact hnd.1 (he ▸ List.mem_map_of_mem key (t.get_mem j hj))
      rw [List.findIdx?_cons, hne]
      simp only [Bool.false_eq_true, if_false]
      rw [hget, List.findIdx?_succ, ih hnd.2 j hj]
      rfl

/-- Mapping the assigned positions over the sorted list itself yields
exactly `1, 2, ..., N`. -/
lemma map_assignPos_positions (srt : List Reservation)
    (hnd : (srt.map Reservation.id).Nodup) :
    srt.map (fun r => (assignPos srt r).queue_position) =
      List.range' 1 srt.length := by
  apply List.ext_get
  · simp [List.length_range']
  · intro n h1 h2
    have hn : n < srt.length := by simpa using h1
    have hfi := findIdx?_key_self Reservation.id srt hnd n hn
    have hl : ((srt.map (fun r => (assignPos srt r).queue_position)).get ⟨n, h1⟩)
        = (assignPos srt (srt.get ⟨n, hn⟩)).queue_position := by
      simp
    rw [hl]
    unfold assignPos
    rw [hfi]
    show n + 1 = (List.range' 1 srt.length).get ⟨n, h2⟩
    simp [List.get_eq_getElem, List.getElem_range', Nat.add_comm]

/-- After `update_queue_positions`, the pending reservations of the book
carry a contiguous `1..N` ranking ascending in `reservation_date`. -/
lemma update_queue_positions_ranking (db : DB) (bid : Nat)
    (hnd : (db.reservations.map Reservation.id).Nodup) :
    isContiguousRanking (pendingRes (update_queue_positions db bid) bid) := by
  have hflt : pendingRes (update_queue_positions db bid) bid
      = (pendingRes db bid).map (assignPos (pendingByDate db bid)) := by
    simp only [pendingRes, update_queue_positions]
    rw [List.filter_map]
    congr 1
    apply List.filter_congr
    intro r _
    simp only [Function.comp_apply, assignPos_book_id, assignPos_status]
  have hperm : (pendingByDate db bid).Perm (pendingRes db bid) :=
    List.perm_insertionSort dateLe _
  have hndflt : ((pendingRes db bid).map Reservation.id).Nodup :=
    List.Nodup.sublist ((List.filter_sublist _).map _) hnd
  have hndsrt : ((pendingByDate db bid).map Reservation.id).Nodup := by
    rw [List.Perm.nodup_iff (hperm.map Reservation.id)]
    exact hndflt
  have hsorted : List.Sorted dateLe (pendingByDate db bid) :=
    List.sorted_insertionSort dateLe _
  rw [hflt]
  constructor
  · have h1 : ((pendingRes db bid).map (assignPos (pendingByDate db bid))).map
        Reservation.queue_position
        = (pendingRes db bid).map
            (fun r => (assignPos (pendingByDate db bid) r).queue_position) := by
      rw [List.map_map]
      rfl
    have h2 : ((pendingRes db bid).map
        (fun r => (assignPos (pendingByDate db bid) r).queue_position)).Perm
        ((pendingByDate db bid).map
          (fun r => (assignPos (pendingByDate db bid) r).queue_position)) :=
      (hperm.map _).symm
    have h3 := map_assignPos_positions (pendingByDate db bid) hndsrt
    rw [h3] at h2
    have h4 : ((pendingRes db bid).map (assignPos (pendingByDate db bid))).length
        = (pendingByDate db bid).length := by
      rw [List.length_map, hperm.length_eq]
    rw [h1, h4]
    exact h2
  · intro x hx y hy hdate
    obtain ⟨r0, hr0, rfl⟩ := List.mem_map.mp hx
    obtain ⟨s0, hs0, rfl⟩ := List.mem_map.mp hy
    have hdate2 : r0.reservation_date < s0.reservation_date := by
      simpa [assignPos_date] using hdate
    have hr0s : r0 ∈ pendingByDate db bid := (hperm.mem_iff).mpr hr0
    have hs0s : s0 ∈ pendingByDate db bid := (hperm.mem_iff).mpr hs0
    obtain ⟨i, hgi⟩ := List.get_of_mem hr0s
    obtain ⟨j, hgj⟩ := List.get_of_mem hs0s
    have hpi : (assignPos (pendingByDate db bid) r0).queue_position = i.1 + 1 := by
      unfold assignPos
      rw [← hgi]
      rw [findIdx?_key_self Reservation.id (pendingByDate db bid) hndsrt i.1 i.2]
    have hpj : (assignPos (pendingByDate db bid) s0).queue_position = j.1 + 1 := by
      unfold assignPos
      rw [← hgj]
      rw [findIdx?_key_self Reservation.id (pendingByDate db bid) hndsrt j.1 j.2]
    have hij : i < j := by
      rcases lt_trichotomy i j with h | h | h
      · exact h
      · exfalso
        rw [h, hgj] at hgi
        rw [hgi] at hdate2
        exact lt_irrefl _ hdate2
      · exfalso
        have hle := hsorted.rel_get_of_lt h
        rw [hgi, hgj] at hle
        exact absurd hdate2 (not_lt.mpr hle)
    have hij2 : i.1 < j.1 := hij
    rw [hpi, hpj]
    exact Nat.succ_lt_succ hij2

lemma assignPos_id (s : List Reservation) (r : Reservation) :
    (assignPos s r).id = r.id := by
  unfold assignPos
  split <;> rfl

lemma nodup_ids_updateReservation (d : DB) (rid : Nat) (f : Reservation → Reservation)
    (hf : ∀ r, (f r).id = r.id)
    (h : (d.reservations.map Reservation.id).Nodup) :
    ((updateReservation d rid f).reservations.map Reservation.id).Nodup := by
  show ((d.reservations.map _).map Reservation.id).Nodup
  rw [List.map_map]
  have he : (Reservation.id ∘ fun r => if r.id = rid then f r else r) = Reservation.id := by
    funext r
    simp only [Function.comp_apply]
    split
    · exact hf r
    · rfl
  rw [he]
  exact h

lemma map_pos_updateReservation (d : DB) (rid : Nat) (f : Reservation → Reservation)
    (hf : ∀ r, (f r).queue_position = r.queue_position) :
    ((updateReservation d rid f).reservations).map Reservation.queue_position =
      d.reservations.map Reservation.queue_position := by
  show ((d.reservations.map _).map _) = _
  rw [List.map_map]
  exact List.map_congr_left (fun a _ => by
    simp only [Function.comp_apply]
    split
    · exact hf a
    · rfl)

lemma restockBook_reservations (d : DB) (bid : Nat) :
    (restockBook d bid).reservations = d.reservations := by
  unfold restockBook
  split <;> rfl

lemma restockBook_books_of_found (d : DB) (bid : Nat) (b : Book)
    (hb : findBook d bid = some b) :
    (restockBook d bid).books = d.books.map (fun bk =>
      if bk.id = bid then { bk with available_quantity := bk.available_quantity + 1 }
      else bk) := by
  unfold restockBook
  rw [hb]
  rfl

/-- A successful return never touches any queue_position (promotion included). -/
lemma return_book_preserves_positions (db : DB) (actor : User) (rid : Nat)
    (fp : Bool) (now : Int) :
    ((return_book db actor rid fp now).1.reservations).map Reservation.queue_position =
      db.reservations.map Reservation.queue_position := by
  unfold return_book
  split
  · rfl
  · split
    · rfl
    · split
      · rfl
      · dsimp only
        split
        · rw [restockBook_reservations]
          rfl
        · rw [map_pos_updateReservation _ _
            (fun r => { r with status := ReservationStatus.available
                               expire_date := some (now + 3 * daySecs)
                               notified := true })
            (fun r => rfl), restockBook_reservations]
          rfl

/-- The committed state and response of a permitted cancellation of a
pending/available reservation. -/
lemma cancel_reservation_success (db : DB) (actor : User) (rid : Nat)
    (res : Reservation)
    (hres : findReservation db rid = some res)
    (hperm : res.user_id = actor.id ∨ actor.role = Role.admin)
    (hst : res.status = ReservationStatus.pending ∨
           res.status = ReservationStatus.available) :
    cancel_reservation db actor rid =
      (update_queue_positions
        (updateReservation
          (if res.status = ReservationStatus.available then restockBook db res.book_id
           else db)
          rid (fun r => { r with status := ReservationStatus.cancelled }))
        res.book_id,
       Except.ok { res with status := ReservationStatus.cancelled }) := by
  have hp : ¬ (res.user_id ≠ actor.id ∧ actor.role ≠ Role.admin) := by tauto
  simp only [cancel_reservation, hres]
  rw [if_neg hp, if_neg (not_not_intro hst)]

lemma cancelled_after_update (d : DB) (rid bid : Nat) :
    ∀ r' ∈ (update_queue_positions (updateReservation d rid
        (fun r => { r with status := ReservationStatus.cancelled })) bid).reservations,
      r'.id = rid → r'.status = ReservationStatus.cancelled := by
  intro r' hmem hid
  simp only [update_queue_positions, updateReservation] at hmem
  obtain ⟨r1, hr1, rfl⟩ := List.mem_map.mp hmem
  obtain ⟨r0, hr0, rfl⟩ := List.mem_map.mp hr1
  rw [assignPos_status]
  rw [assignPos_id] at hid
  by_cases h0 : r0.id = rid
  · rw [if_pos h0]
  · rw [if_neg h0] at hid
    exact absurd hid h0

/-- C3 counterexample: a promotion (during return) removes a reservation
from the pending set without recomputing queue positions — the remaining
pending reservation keeps position 2, which is not a contiguous `1..N`
ranking. -/
theorem promotion_no_recompute_cx :
    ¬ isContiguousRanking
      (pendingRes (return_book dbQueue u1 1 false (10 * daySecs)).1 1) := by
  decide

/-- C3 (amended): after a cancellation the book's pending reservations are
recomputed to a contiguous `1..N` ranking ascending in `reservation_date`;
but a promotion (during return) recomputes nothing — every reservation
keeps its previous `queue_position`. -/
theorem queue_positions_amended :
    (∀ (db : DB) (actor : User) (rid : Nat) (res : Reservation),
      (db.reservations.map Reservation.id).Nodup →
      findReservation db rid = some res →
      (res.user_id = actor.id ∨ actor.role = Role.admin) →
      (res.status = ReservationStatus.pending ∨
       res.status = ReservationStatus.available) →
      isContiguousRanking (pendingRes (cancel_reservation db actor rid).1 res.book_id)) ∧
    (∀ (db : DB) (actor : User) (rid : Nat) (fp : Bool) (now : Int),
      ((return_book db actor rid fp now).1.reservations).map Reservation.queue_position =
        db.reservations.map Reservation.queue_position) := by
  constructor
  · intro db actor rid res hnd hres hperm hst
    rw [cancel_reservation_success db actor rid res hres hperm hst]
    dsimp only
    apply update_queue_positions_ranking
    apply nodup_ids_updateReservation
    · intro r
      rfl
    · split
      · rw [restockBook_reservations]
        exact hnd
      · exact hnd
  · exact return_book_preserves_positions

/-- Witness for the amended C3 at a concrete state. -/
theorem queue_positions_amended_w :
    isContiguousRanking
      (pendingRes (cancel_reservation dbQueue u2 1).1 resQ1.book_id) ∧
    ((return_book dbQueue u1 1 false (10 * daySecs)).1.reservations).map
        Reservation.queue_position =
      dbQueue.reservations.map Reservation.queue_position :=
  ⟨queue_positions_amended.1 dbQueue u2 1 resQ1 (by decide) (by decide)
      (by decide) (by decide),
   queue_positions_amended.2 dbQueue u1 1 false (10 * daySecs)⟩

/-- C10: cancelling a reservation succeeds exactly for pending/available
reservations; an available one restores the book's `available_quantity` by
1 while a pending one leaves the books untouched; in both cases the
reservation becomes `cancelled`, the book's queue positions are recomputed
to a contiguous ranking, and no other book field changes. -/
theorem cancel_reservation_correct (db : DB) (actor : User) (rid : Nat)
    (res : Reservation) (b : Book)
    (hnd : (db.reservations.map Reservation.id).Nodup)
    (hres : findReservation db rid = some res)
    (hperm : res.user_id = actor.id ∨ actor.role = Role.admin)
    (hb : findBook db res.book_id = some b) :
    (¬ (res.status = ReservationStatus.pending ∨
        res.status = ReservationStatus.available) →
      cancel_reservation db actor rid = (db, Except.error Err.badRequest)) ∧
    ((res.status = ReservationStatus.pending ∨
      res.status = ReservationStatus.available) →
      (cancel_reservation db actor rid).2 =
        Except.ok { res with status := ReservationStatus.cancelled }) ∧
    (res.status = ReservationStatus.available →
      (cancel_reservation db actor rid).1.books = db.books.map (fun bk =>
        if bk.id = res.book_id then
          { bk with available_quantity := bk.available_quantity + 1 }
        else bk)) ∧
    (res.status = ReservationStatus.pending →
      (cancel_reservation db actor rid).1.books = db.books) ∧
    ((res.status = ReservationStatus.pending ∨
      res.status = ReservationStatus.available) →
      isContiguousRanking (pendingRes (cancel_reservation db actor rid).1 res.book_id)) ∧
    ((res.status = ReservationStatus.pending ∨
      res.status = ReservationStatus.available) →
      ∀ r' ∈ (cancel_reservation db actor rid).1.reservations,
        r'.id = rid → r'.status = ReservationStatus.cancelled) := by
  have hp : ¬ (res.user_id ≠ actor.id ∧ actor.role ≠ Role.admin) := by tauto
  by_cases hst : (res.status = ReservationStatus.pending ∨
      res.status = ReservationStatus.available)
  · have hs := cancel_reservation_success db actor rid res hres hperm hst
    refine ⟨fun h => absurd hst h, fun _ => by rw [hs], ?_, ?_, fun _ => ?_, fun _ => ?_⟩
    · intro hav
      rw [hs, if_pos hav]
      dsimp only
      show (restockBook db res.book_id).books = _
      rw [restockBook_books_of_found db res.book_id b hb]
    · intro hpd
      have hne : ¬ (res.status = ReservationStatus.available) := by
        rw [hpd]
        decide
      rw [hs, if_neg hne]
      rfl
    · rw [hs]
      dsimp only
      apply update_queue_positions_ranking
      apply nodup_ids_updateReservation
      · intro r
        rfl
      · split
        · rw [restockBook_reservations]
          exact hnd
        · exact hnd
    · rw [hs]
      exact cancelled_after_update _ rid res.book_id
  · refine ⟨fun _ => ?_, fun h => absurd h hst, fun hav => absurd (Or.inr hav) hst,
      fun hpd => absurd (Or.inl hpd) hst, fun h => absurd h hst, fun h => absurd h hst⟩
    simp only [cancel_reservation, hres]
    rw [if_neg hp, if_pos hst]

/-- Witness for C10 at a concrete state. -/
theorem cancel_reservation_correct_w :
    (¬ (resQ1.status = ReservationStatus.pending ∨
        resQ1.status = ReservationStatus.available) →
      cancel_reservation dbQueue u2 1 = (dbQueue, Except.error Err.badRequest)) ∧
    ((resQ1.status = ReservationStatus.pending ∨
      resQ1.status = ReservationStatus.available) →
      (cancel_reservation dbQueue u2 1).2 =
        Except.ok { resQ1 with status := ReservationStatus.cancelled }) ∧
    (resQ1.status = ReservationStatus.available →
      (cancel_reservation dbQueue u2 1).1.books = dbQueue.books.map (fun bk =>
        if bk.id = resQ1.book_id then
          { bk with available_quantity := bk.available_quantity + 1 }
        else bk)) ∧
    (resQ1.status = ReservationStatus.pending →
      (cancel_reservation dbQueue u2 1).1.books = dbQueue.books) ∧
    ((resQ1.status = ReservationStatus.pending ∨
      resQ1.status = ReservationStatus.available) →
      isContiguousRanking (pendingRes (cancel_reservation dbQueue u2 1).1 resQ1.book_id)) ∧
    ((resQ1.status = ReservationStatus.pending ∨
      resQ1.status = ReservationStatus.available) →
      ∀ r' ∈ (cancel_reservation dbQueue u2 1).1.reservations,
        r'.id = 1 → r'.status = ReservationStatus.cancelled) :=
  cancel_reservation_correct dbQueue u2 1 resQ1
    { book1 with available_quantity := 0, borrow_count := 1 }
    (by decide) (by decide) (by decide) (by decide)

lemma pendingByPos_restock_update (d : DB) (rid bid : Nat)
    (f : BorrowRecord → BorrowRecord) :
    pendingByPos (restockBook (updateRecord d rid f) bid) bid =
      pendingByPos d bid := by
  unfold pendingByPos pendingRes
  rw [restockBook_reservations]
  rfl

lemma restock_updateRecord_reservations (d : DB) (rid bid : Nat)
    (f : BorrowRecord → BorrowRecord) :
    (restockBook (updateRecord d rid f) bid).reservations = d.reservations := by
  rw [restockBook_reservations]
  rfl

lemma restock_updateRecord_notifications (d : DB) (rid bid : Nat)
    (f : BorrowRecord → BorrowRecord) :
    (restockBook (updateRecord d rid f) bid).notifications = d.notifications := by
  unfold restockBook
  split <;> rfl

lemma restock_updateRecord_books (d : DB) (rid bid : Nat)
    (f : BorrowRecord → BorrowRecord) (b : Book)
    (hb : findBook d bid = some b) :
    (restockBook (updateRecord d rid f) bid).books = d.books.map (fun bk =>
      if bk.id = bid then { bk with available_quantity := bk.available_quantity + 1 }
      else bk) := by
  have hb2 : findBook (updateRecord d rid f) bid = some b := hb
  rw [restockBook_books_of_found _ _ _ hb2]
  rfl

/-- C4: a permitted return of an unreturned record whose book has a pending
queue promotes the pending reservation with the lowest `queue_position` to
`available` with `expire_date = now + 3 days`, notifies that reservation's
user, and leaves the book with exactly the return's own `+1` on
`available_quantity` (the promotion itself changes no book counter). -/
theorem return_book_promotion (db : DB) (actor : User) (rid : Nat)
    (fp : Bool) (now : Int) (record : BorrowRecord) (b : Book)
    (hr : findRecord db rid = some record)
    (hperm : record.user_id = actor.id ∨ actor.role = Role.admin)
    (hst : ¬ record.status = BorrowStatus.returned)
    (hb : findBook db record.book_id = some b)
    (hpend : pendingRes db record.book_id ≠ []) :
    ∃ p, (pendingByPos db record.book_id).head? = some p ∧
      p.book_id = record.book_id ∧ p.status = ReservationStatus.pending ∧
      (∀ q ∈ pendingRes db record.book_id, p.queue_position ≤ q.queue_position) ∧
      (return_book db actor rid fp now).1.reservations =
        db.reservations.map (fun r =>
          if r.id = p.id then
            { r with status := ReservationStatus.available
                     expire_date := some (now + 3 * daySecs), notified := true }
          else r) ∧
      (return_book db actor rid fp now).1.notifications =
        db.notifications ++
          [{ user_id := p.user_id, ntype := NotificationType.reservationReady
             related_id := p.id }] ∧
      (return_book db actor rid fp now).1.books =
        db.books.map (fun bk =>
          if bk.id = record.book_id then
            { bk with available_quantity := bk.available_quantity + 1 }
          else bk) := by
  have hp' : ¬ (record.user_id ≠ actor.id ∧ actor.role ≠ Role.admin) := by tauto
  have hne : pendingByPos db record.book_id ≠ [] := by
    intro h
    apply hpend
    have hlen := (List.perm_insertionSort posLe (pendingRes db record.book_id)).length_eq
    rw [show List.insertionSort posLe (pendingRes db record.book_id) =
        pendingByPos db record.book_id from rfl, h] at hlen
    exact List.eq_nil_of_length_eq_zero hlen.symm
  cases hl : pendingByPos db record.book_id with
  | nil => exact absurd hl hne
  | cons p t =>
    have hmemSort : p ∈ pendingByPos db record.book_id := by
      rw [hl]
      exact List.mem_cons_self p t
    have hmem : p ∈ pendingRes db record.book_id :=
      (List.perm_insertionSort posLe _).mem_iff.mp hmemSort
    have hmem2 := hmem
    simp only [pendingRes, List.mem_filter, decide_eq_true_eq] at hmem2
    have hsorted : List.Sorted posLe (pendingByPos db record.book_id) :=
      List.sorted_insertionSort posLe _
    rw [hl] at hsorted
    have hmin : ∀ q ∈ pendingRes db record.book_id,
        p.queue_position ≤ q.queue_position := by
      intro q hq
      have hq2 : q ∈ p :: t := by
        rw [← hl]
        exact (List.perm_insertionSort posLe _).mem_iff.mpr hq
      rcases List.mem_cons.mp hq2 with h | h
      · rw [h]
      · exact List.rel_of_sorted_cons hsorted q h
    refine ⟨p, rfl, hmem2.2.1, hmem2.2.2, hmin, ?_, ?_, ?_⟩
    · simp only [return_book, hr]
      rw [if_neg hp', if_neg hst]
      rw [pendingByPos_restock_update, hl]
      simp only [List.head?_cons]
      simp only [updateReservation]
      rw [restock_updateRecord_reservations]
    · simp only [return_book, hr]
      rw [if_neg hp', if_neg hst]
      rw [pendingByPos_restock_update, hl]
      simp only [List.head?_cons]
      simp only [updateReservation]
      rw [restock_updateRecord_notifications]
    · simp only [return_book, hr]
      rw [if_neg hp', if_neg hst]
      rw [pendingByPos_restock_update, hl]
      simp only [List.head?_cons]
      simp only [updateReservation]
      rw [restock_updateRecord_books db rid record.book_id _ b hb]

/-- Witness for C4 at a concrete state. -/
theorem return_book_promotion_w :
    ∃ p, (pendingByPos dbQueue recHeld.book_id).head? = some p ∧
      p.book_id = recHeld.book_id ∧ p.status = ReservationStatus.pending ∧
      (∀ q ∈ pendingRes dbQueue recHeld.book_id,
        p.queue_position ≤ q.queue_position) ∧
      (return_book dbQueue u1 1 false (10 * daySecs)).1.reservations =
        dbQueue.reservations.map (fun r =>
          if r.id = p.id then
            { r with status := ReservationStatus.available
                     expire_date := some (10 * daySecs + 3 * daySecs)
                     notified := true }
          else r) ∧
      (return_book dbQueue u1 1 false (10 * daySecs)).1.notifications =
        dbQueue.notifications ++
          [{ user_id := p.user_id, ntype := NotificationType.reservationReady
             related_id := p.id }] ∧
      (return_book dbQueue u1 1 false (10 * daySecs)).1.books =
        dbQueue.books.map (fun bk =>
          if bk.id = recHeld.book_id then
            { bk with available_quantity := bk.available_quantity + 1 }
          else bk) :=
  return_book_promotion dbQueue u1 1 false (10 * daySecs) recHeld
    { book1 with available_quantity := 0, borrow_count := 1 }
    (by decide) (by decide) (by decide) (by decide) (by decide)

/-- C1 (the code violates the claimed invariant): starting from a state
satisfying `0 ≤ available_quantity ≤ quantity`, the operation sequence
return (which promotes a pending reservation without earmarking a copy),
borrow by a third user (taking the freed copy), then completion of the
promoted reservation drives `available_quantity` of book 1 to `-1`.  Every
step before the last preserves the invariant and every step succeeds. -/
theorem overbooking_after_promotion :
    bookInvariant dbQueue ∧
    (return_book dbQueue u1 1 false (10 * daySecs)).2.isOk = true ∧
    bookInvariant (return_book dbQueue u1 1 false (10 * daySecs)).1 ∧
    (borrow_book (return_book dbQueue u1 1 false (10 * daySecs)).1
        u3 none 1 30 2 (11 * daySecs)).2.isOk = true ∧
    bookInvariant (borrow_book (return_book dbQueue u1 1 false (10 * daySecs)).1
        u3 none 1 30 2 (11 * daySecs)).1 ∧
    (complete_reservation (borrow_book
        (return_book dbQueue u1 1 false (10 * daySecs)).1
        u3 none 1 30 2 (11 * daySecs)).1 u2 1 3 (12 * daySecs)).2.isOk = true ∧
    ((findBook (complete_reservation (borrow_book
        (return_book dbQueue u1 1 false (10 * daySecs)).1
        u3 none 1 30 2 (11 * daySecs)).1 u2 1 3 (12 * daySecs)).1 1).map
      Book.available_quantity) = some (-1) ∧
    ¬ bookInvariant (complete_reservation (borrow_book
        (return_book dbQueue u1 1 false (10 * daySecs)).1
        u3 none 1 30 2 (11 * daySecs)).1 u2 1 3 (12 * daySecs)).1 := by
  decide

-- ==================== rating rollup lemmas ============================

/-- Recomputation `update_book_rating` establishes the rollup for the book it targets. -/
lemma rollupOK_update_book_rating (db : DB) (bid : Nat) :
    rollupOK (update_book_rating db bid) bid := by
  cases hfb : findBook db bid with
  | none =>
    have hre : update_book_rating db bid = db := by
      unfold update_book_rating
      rw [hfb]
    rw [hre]
    intro b2 hb2 hid
    exfalso
    have := List.find?_eq_none.mp hfb b2 hb2
    simp at this
    exact this hid
  | some b0 =>
    have hre : update_book_rating db bid = updateBook db bid (fun b =>
        { b with avg_rating := round2 (visibleRatingsMean db bid)
                 review_count := (visibleReviews db bid).length }) := by
      unfold update_book_rating
      rw [hfb]
    rw [hre]
    intro b2 hb2 hid
    have hb3 : b2 ∈ db.books.map (fun b =>
        if b.id = bid then
          { b with avg_rating := round2 (visibleRatingsMean db bid)
                   review_count := (visibleReviews db bid).length }
        else b) := hb2
    obtain ⟨b1, hb1, rfl⟩ := List.mem_map.mp hb3
    by_cases h1 : b1.id = bid
    · rw [if_pos h1]
      exact ⟨rfl, rfl⟩
    · rw [if_neg h1] at hid
      exact absurd hid h1

lemma ratingFields_map (bs : List Book) (g : Book → Book)
    (h : ∀ b, (g b).id = b.id ∧ (g b).avg_rating = b.avg_rating ∧
      (g b).review_count = b.review_count) :
    ratingFields (bs.map g) = ratingFields bs := by
  unfold ratingFields
  rw [List.map_map]
  apply List.map_congr_left
  intro a _
  simp only [Function.comp_apply]
  rw [(h a).1, (h a).2.1, (h a).2.2]

lemma ratingFields_restockBook (d : DB) (bid : Nat) :
    ratingFields (restockBook d bid).books = ratingFields d.books := by
  unfold restockBook
  split
  · show ratingFields (d.books.map _) = ratingFields d.books
    exact ratingFields_map _ _ (fun b => by
      refine ⟨?_, ?_, ?_⟩ <;> (split <;> rfl))
  · rfl

lemma ratingFields_restock_updateRecord (d : DB) (rid bid : Nat)
    (f : BorrowRecord → BorrowRecord) :
    ratingFields (restockBook (updateRecord d rid f) bid).books =
      ratingFields d.books :=
  ratingFields_restockBook _ _

lemma ratingFields_foldl_restock (l : List Reservation) :
    ∀ d : DB,
      ratingFields ((l.foldl (fun d r => restockBook d r.book_id) d).books) =
        ratingFields d.books := by
  induction l with
  | nil =>
    intro d
    rfl
  | cons a t ih =>
    intro d
    rw [List.foldl_cons, ih, ratingFields_restockBook]

lemma ratingFields_foldl_uqp (l : List Nat) :
    ∀ d : DB,
      ratingFields ((l.foldl update_queue_positions d).books) =
        ratingFields d.books := by
  induction l with
  | nil =>
    intro d
    rfl
  | cons a t ih =>
    intro d
    rw [List.foldl_cons, ih]
    rfl

/-- C8 counterexample: with visible ratings {4, 4, 5} the code stores
`avg_rating = 4.33` (two-decimal rounding), which is not the exact mean
`13/3`. -/
theorem review_rollup_rounding_cx :
    ((findBook (create_review dbRate uA 1 5 3).1 1).map Book.avg_rating) =
      some (433 / 100) ∧
    visibleRatingsMean (create_review dbRate uA 1 5 3).1 1 = 13 / 3 ∧
    (433 / 100 : Rat) ≠ 13 / 3 := by
  have h1 : (create_review dbRate uA 1 5 3).1 = update_book_rating dbRate2 1 := rfl
  have h3 : visibleRatingsMean dbRate2 1 = 13 / 3 := by
    unfold visibleRatingsMean
    rw [show visibleReviews dbRate2 1 =
      [rv1, rv2, { id := 3, user_id := 9, book_id := 1, rating := 5
                   is_visible := true }] from rfl]
    norm_num [rv1, rv2]
  have h4 : round2 (13 / 3 : Rat) = 433 / 100 := by
    have hfl : (⌊(13 / 3 : Rat) * 100⌋ : Int) = 433 := by norm_num
    unfold round2
    rw [ratFloor_eq, hfl]
    norm_num
  have h2 : update_book_rating dbRate2 1 = updateBook dbRate2 1 (fun b =>
      { b with avg_rating := round2 (visibleRatingsMean dbRate2 1)
               review_count := (visibleReviews dbRate2 1).length }) := rfl
  refine ⟨?_, ?_, by norm_num⟩
  · rw [h1, h2]
    show some (round2 (visibleRatingsMean dbRate2 1)) = some (433 / 100)
    rw [h3, h4]
  · rw [h1, h2]
    show visibleRatingsMean dbRate2 1 = 13 / 3
    exact h3

/-- C8 (amended): after every successful review create, update, delete or
visibility toggle, the touched book's `avg_rating` equals the mean of its
visible ratings rounded to two decimals (half-to-even, as Python `round`)
and `review_count` equals the number of visible reviews; and no operation
writes either field other than this recomputation — every non-review
operation of the system (borrow, return, renew, reservation create, cancel
and complete, and both batch sweeps) preserves the rating fields of every
book, while the review operations write them only through
`update_book_rating` (the book routes never accept these fields:
`BookCreate`/`BookUpdate` in `schemas.py` exclude them). -/
theorem review_rollup_amended :
    (∀ (db : DB) (actor : User) (bid rating newId : Nat),
      ((create_review db actor bid rating newId).2).isOk = true →
      rollupOK (create_review db actor bid rating newId).1 bid) ∧
    (∀ (db : DB) (actor : User) (rid : Nat) (k : Option Nat) (v : BookReview),
      findReview db rid = some v →
      ((update_review db actor rid k).2).isOk = true →
      rollupOK (update_review db actor rid k).1 v.book_id) ∧
    (∀ (db : DB) (actor : User) (rid : Nat) (v : BookReview),
      findReview db rid = some v →
      ((delete_review db actor rid).2).isOk = true →
      rollupOK (delete_review db actor rid).1 v.book_id) ∧
    (∀ (db : DB) (rid : Nat) (v : BookReview),
      findReview db rid = some v →
      ((toggle_review_visibility db rid).2).isOk = true →
      rollupOK (toggle_review_visibility db rid).1 v.book_id) ∧
    (∀ (db : DB) (actor : User) (du : Option Nat) (bid days newId : Nat) (now : Int),
      ratingFields (borrow_book db actor du bid days newId now).1.books =
        ratingFields db.books) ∧
    (∀ (db : DB) (actor : User) (rid : Nat) (fp : Bool) (now : Int),
      ratingFields (return_book db actor rid fp now).1.books =
        ratingFields db.books) ∧
    (∀ (db : DB) (actor : User) (rid renew_days : Nat),
      ratingFields (renew_book db actor rid renew_days).1.books =
        ratingFields db.books) ∧
    (∀ (db : DB) (actor : User) (bid newId : Nat) (now : Int),
      ratingFields (create_reservation db actor bid newId now).1.books =
        ratingFields db.books) ∧
    (∀ (db : DB) (actor : User) (rid : Nat),
      ratingFields (cancel_reservation db actor rid).1.books =
        ratingFields db.books) ∧
    (∀ (db : DB) (actor : User) (rid newRecId : Nat) (now : Int),
      ratingFields (complete_reservation db actor rid newRecId now).1.books =
        ratingFields db.books) ∧
    (∀ (db : DB) (now : Int),
      ratingFields (batch_check_overdue db now).1.books = ratingFields db.books) ∧
    (∀ (db : DB) (now : Int),
      ratingFields (batch_check_expired db now).1.books = ratingFields db.books) := by
  refine ⟨?_, ?_, ?_, ?_, ?_, ?_, ?_, ?_, ?_, ?_, ?_, ?_⟩
  · intro db actor bid rating newId hok
    cases hfb : findBook db bid with
    | none =>
      simp only [create_review, hfb] at hok
      simp [Except.isOk, Except.toBool] at hok
    | some b0 =>
      simp only [create_review, hfb] at hok ⊢
      by_cases h1 : (db.records.find?
          (fun r => decide (r.user_id = actor.id ∧ r.book_id = bid)) = none ∧
          actor.role ≠ Role.admin)
      · rw [if_pos h1] at hok
        simp [Except.isOk, Except.toBool] at hok
      · rw [if_neg h1] at hok ⊢
        cases h2 : db.reviews.find?
            (fun v => decide (v.user_id = actor.id ∧ v.book_id = bid)) with
        | some v0 =>
          rw [h2] at hok
          simp [Except.isOk, Except.toBool] at hok
        | none =>
          exact rollupOK_update_book_rating _ _
  · intro db actor rid k v hv hok
    simp only [update_review, hv] at hok ⊢
    by_cases h1 : (v.user_id ≠ actor.id ∧ actor.role ≠ Role.admin)
    · rw [if_pos h1] at hok
      simp [Except.isOk, Except.toBool] at hok
    · rw [if_neg h1]
      exact rollupOK_update_book_rating _ _
  · intro db actor rid v hv hok
    simp only [delete_review, hv] at hok ⊢
    by_cases h1 : (v.user_id ≠ actor.id ∧ actor.role ≠ Role.admin)
    · rw [if_pos h1] at hok
      simp [Except.isOk, Except.toBool] at hok
    · rw [if_neg h1]
      exact rollupOK_update_book_rating _ _
  · intro db rid v hv _
    simp only [toggle_review_visibility, hv]
    exact rollupOK_update_book_rating _ _
  · intro db actor du bid days newId now
    simp only [borrow_book]
    repeat' split
    all_goals first
      | rfl
      | (show ratingFields (db.books.map _) = ratingFields db.books
         exact ratingFields_map _ _ (fun b => by
           refine ⟨?_, ?_, ?_⟩ <;> (split <;> rfl)))
  · intro db actor rid fp now
    simp only [return_book]
    repeat' split
    all_goals first
      | rfl
      | exact ratingFields_restock_updateRecord _ _ _ _
  · intro db actor rid renew_days
    simp only [renew_book]
    repeat' split
    all_goals rfl
  · intro db actor bid newId now
    simp only [create_reservation]
    repeat' split
    all_goals rfl
  · intro db actor rid
    simp only [cancel_reservation]
    repeat' split
    all_goals first
      | rfl
      | exact ratingFields_restockBook _ _
  · intro db actor rid newRecId now
    simp only [complete_reservation]
    repeat' split
    all_goals first
      | rfl
      | (show ratingFields (db.books.map _) = ratingFields db.books
         exact ratingFields_map _ _ (fun b => by
           refine ⟨?_, ?_, ?_⟩ <;> (split <;> rfl)))
  · intro db now
    rfl
  · intro db now
    exact (ratingFields_foldl_uqp _ _).trans ((ratingFields_foldl_restock _ _).trans rfl)

/-- Witness for the amended C8 at concrete states. -/
theorem review_rollup_amended_w :
    rollupOK (create_review dbReviewed uA 1 5 2).1 1 ∧
    rollupOK (update_review dbReviewed u1 1 (some 3)).1 rv1.book_id ∧
    rollupOK (delete_review dbReviewed u1 1).1 rv1.book_id ∧
    rollupOK (toggle_review_visibility dbReviewed 1).1 rv1.book_id ∧
    ratingFields (borrow_book dbShelf u2 none 1 30 1 0).1.books =
      ratingFields dbShelf.books ∧
    ratingFields (return_book dbHeld u1 1 false (10 * daySecs)).1.books =
      ratingFields dbHeld.books ∧
    ratingFields (renew_book dbHeld u1 1 14).1.books = ratingFields dbHeld.books ∧
    ratingFields (create_reservation dbHeld u2 1 1 0).1.books =
      ratingFields dbHeld.books ∧
    ratingFields (cancel_reservation dbQueue u2 1).1.books =
      ratingFields dbQueue.books ∧
    ratingFields (complete_reservation dbQueue u2 1 2 0).1.books =
      ratingFields dbQueue.books ∧
    ratingFields (batch_check_overdue dbHeld (40 * daySecs)).1.books =
      ratingFields dbHeld.books ∧
    ratingFields (batch_check_expired dbQueue (40 * daySecs)).1.books =
      ratingFields dbQueue.books :=
  ⟨review_rollup_amended.1 dbReviewed uA 1 5 2 rfl,
   review_rollup_amended.2.1 dbReviewed u1 1 (some 3) rv1 rfl rfl,
   review_rollup_amended.2.2.1 dbReviewed u1 1 rv1 rfl rfl,
   review_rollup_amended.2.2.2.1 dbReviewed 1 rv1 rfl rfl,
   review_rollup_amended.2.2.2.2.1 dbShelf u2 none 1 30 1 0,
   review_rollup_amended.2.2.2.2.2.1 dbHeld u1 1 false (10 * daySecs),
   review_rollup_amended.2.2.2.2.2.2.1 dbHeld u1 1 14,
   review_rollup_amended.2.2.2.2.2.2.2.1 dbHeld u2 1 1 0,
   review_rollup_amended.2.2.2.2.2.2.2.2.1 dbQueue u2 1,
   review_rollup_amended.2.2.2.2.2.2.2.2.2.1 dbQueue u2 1 2 0,
   review_rollup_amended.2.2.2.2.2.2.2.2.2.2.1 dbHeld (40 * daySecs),
   review_rollup_amended.2.2.2.2.2.2.2.2.2.2.2 dbQueue (40 * daySecs)⟩

end LibSys
